import Mathlib

/-!
Verification development for the `5minutesofharmony` backend.

The action-cooldown gate lives in `apps/Auth` (`models.Profile.has_action`,
`utils.time_until_next_action`, `utils.user_has_action`, `views.use_action`)
and the note editing operations live in `apps/SheetMusic`
(`views.change_pitch`, `views.combine_pitch`, `models.Note` on top of
django-ordered-model's `OrderedModel`).

Timestamps are modelled as rationals measured in seconds: Python datetimes
carry microsecond resolution, and the `int()` truncation in
`time_until_next_action` only matters at non-integer elapsed times, so the
time domain must be finer than whole seconds.
-/

namespace FiveMin

/-- One second expressed in microseconds, the resolution of Python datetimes.
Timestamps below are integers of microseconds; cooldown ticks stay in whole
seconds exactly as `settings.ACTION_TICK_SECONDS` does. -/
def usec : ℤ := 1000000

/-- Per-user cooldown record (apps/Auth/models.py `Profile`): the optional
timestamp `last_used` (microseconds) of the most recent consumed action. -/
structure Profile where
  lastUsed : Option ℤ
deriving DecidableEq

/-- Python `int(x)` for `x = a / 10^6` exact: truncation toward zero.  This is
what `int(tick - elapsed)` performs in apps/Auth/utils.py, where
`tick - elapsed` is the exact rational `(tick*10^6 - (now - last_used)) / 10^6`. -/
def pyTruncUsec (a : ℤ) : ℤ :=
  if 0 ≤ a then a / usec else -((-a) / usec)

/-- apps/Auth/models.py `Profile.has_action`: true when `last_used` is unset,
otherwise when the elapsed time since `last_used` reaches `tick` seconds
(`elapsed >= tick`, no truncation). -/
def has_action (p : Profile) (now : ℤ) (tick : ℤ) : Bool :=
  match p.lastUsed with
  | none => true
  | some t0 => decide (tick * usec ≤ now - t0)

/-- apps/Auth/utils.py `time_until_next_action`: 0 when the profile record is
absent or `last_used` unset, otherwise `max(0, int(tick - elapsed))` whole
seconds. -/
def time_until_next_action (st : Option Profile) (now : ℤ) (tick : ℤ) : ℤ :=
  match st with
  | none => 0
  | some p =>
    match p.lastUsed with
    | none => 0
    | some t0 => max 0 (pyTruncUsec (tick * usec - (now - t0)))

/-- apps/Auth/utils.py `user_has_action`:
`time_until_next_action(user) == 0`. -/
def user_has_action (st : Option Profile) (now : ℤ) (tick : ℤ) : Bool :=
  time_until_next_action st now tick == 0

/-- apps/Auth/views.py `use_action`: `get_or_create` the profile, fail when
`profile.has_action` is false (leaving the record as fetched/created),
otherwise set `last_used = now` and save.  Returns (success?, record). -/
def use_action (st : Option Profile) (now : ℤ) (tick : ℤ) : Bool × Option Profile :=
  let p := st.getD ⟨none⟩
  if has_action p now tick then (true, some ⟨some now⟩) else (false, some p)

/-- A persisted `Note` row (apps/SheetMusic/models.py): primary key `id`,
owning `measure` (by its id, via `order_with_respect_to = 'measure'`),
`duration`, `pitch`, the django-ordered-model rank `order`, and the
`initialized` flag (field name shortened here). -/
structure Note where
  id : ℕ
  measure : ℕ
  pitch : String
  duration : ℕ
  order : ℕ
  initFlag : Bool
deriving DecidableEq

/-- The persistent note table. -/
abbrev Store := List Note

/-- `Note.objects.get(pk=i)` resolved against the table; `none` models the
raised `Note.DoesNotExist`. -/
def findNote (store : Store) (i : ℕ) : Option Note :=
  store.find? (fun x => x.id == i)

/-- django-ordered-model `OrderedModel.delete()` called on the (possibly
stale) in-memory object `ref`: first the SQL update decrements `order` of
every row of the same measure whose `order` exceeds `ref.order` — the value
held by the Python object, not the row's current value — then the row with
`ref`'s primary key is deleted. -/
def orderedDelete (store : Store) (ref : Note) : Store :=
  (store.map (fun x =>
    if x.measure == ref.measure && ref.order < x.order then
      { x with order := x.order - 1 }
    else x)).filter (fun x => x.id != ref.id)

/-- Outcome of the `change_pitch` view (apps/SheetMusic/views.py).
`errNotFound` is the handled client-error response named by the spec's §7;
the view as written never produces it — a missing note surfaces as the
unhandled `Note.DoesNotExist` exception (`raisedDoesNotExist`). -/
inductive PitchOutcome where
  | ok
  | errNoAction
  | errNotFound
  | raisedDoesNotExist
deriving DecidableEq

/-- Result of a `change_pitch` request: the HTTP-level outcome together with
the note table and the caller's cooldown record after the request. -/
structure PitchResult where
  outcome : PitchOutcome
  store : Store
  gate : Option Profile
deriving DecidableEq

/-- apps/SheetMusic/views.py `change_pitch`: reject with a 400 when
`user_has_action` is false; fetch the note by pk (raising when absent);
assign `note.pitch` on the in-memory object only — `note.save()` is never
called and `use_action` is never invoked, so neither the note table nor the
cooldown record changes on any path. -/
def change_pitch (store : Store) (gate : Option Profile) (now : ℤ) (tick : ℤ)
    (noteId : ℕ) (newPitch : String) : PitchResult :=
  if user_has_action gate now tick = false then
    ⟨.errNoAction, store, gate⟩
  else
    match findNote store noteId with
    | none => ⟨.raisedDoesNotExist, store, gate⟩
    | some _ => ⟨.ok, store, gate⟩

/-- Outcome of the `combine_pitch` view (apps/SheetMusic/views.py).
`errPitchMismatch` is the spec's §7 `MergeError::PitchMismatch` vocabulary;
the view performs no pitch comparison and never produces it.
`raisedCreateError` models the exception raised by
`Note.objects.create(measure=measure_id, ..., weak=False)`: the `Note` model
has no `weak` field (TypeError), `measure` is passed as an id where an
instance is required, and the non-null `initialized` column is omitted.
Since that creation call always raises, the success outcome `ok` (the
view's closing 200 response carrying the combined note) is likewise never
produced on any input. -/
inductive CombineOutcome where
  | ok (created : Note)
  | errNoAction
  | raisedDoesNotExist
  | errTooFew
  | errPitchMismatch
  | raisedCreateError
deriving DecidableEq

/-- The resolution loop of `combine_pitch`: each id is fetched with
`Note.objects.get(id=id)`, which raises on the first missing id (`none`),
before any deletion happens. -/
def resolveNotes (store : Store) (ids : List ℕ) : Option (List Note) :=
  ids.mapM (findNote store)

/-- The `duration` keyword argument that `combine_pitch` builds for its
creation call, verbatim from the source: `duration = note_list[0].duration`
followed by `duration = duration * notes_len` at the `create` call site.
Python evaluates this argument before `Note.objects.create` raises.  (The
empty-list case is unreachable: the view has already required at least two
resolved notes.) -/
def combine_duration_arg : List Note → ℕ
  | [] => 0
  | n0 :: rest => n0.duration * (n0 :: rest).length

/-- apps/SheetMusic/views.py `combine_pitch`, faithfully: gate check, resolve
all ids, require at least 2 notes, record `duration`/`pitch`/`measure` of the
first note and the minimum `order`, delete every resolved note (with the
stale in-memory orders), then reach `Note.objects.create(...)` — which always
raises (see `CombineOutcome.raisedCreateError`), after the deletions have
already been committed. -/
def combine_pitch (store : Store) (gate : Option Profile) (now : ℤ) (tick : ℤ)
    (ids : List ℕ) : CombineOutcome × Store :=
  if user_has_action gate now tick = false then
    (.errNoAction, store)
  else
    match resolveNotes store ids with
    | none => (.raisedDoesNotExist, store)
    | some [] => (.errTooFew, store)
    | some [_] => (.errTooFew, store)
    | some (n0 :: n1 :: rest) =>
      let noteList := n0 :: n1 :: rest
      let store1 := noteList.foldl orderedDelete store
      (.raisedCreateError, store1)

/-- The spec's §8 scenario measure: four notes at positions 0–3 with pitches
C, C, D, E, each of duration 4. -/
def demoStore : Store :=
  [⟨1, 1, "C", 4, 0, true⟩, ⟨2, 1, "C", 4, 1, true⟩,
   ⟨3, 1, "D", 4, 2, true⟩, ⟨4, 1, "E", 4, 3, true⟩]

/-- Two same-pitch notes of unequal durations 4 and 2. -/
def unequalStore : Store :=
  [⟨1, 1, "C", 4, 0, true⟩, ⟨2, 1, "C", 2, 1, true⟩]

/-- A single note with id 1. -/
def oneNoteStore : Store :=
  [⟨1, 1, "C", 4, 0, true⟩]

/-!
## Helper lemmas
-/

/-- Truncated remaining time reads zero exactly when less than one whole
second (one `usec`) is left. -/
theorem max_pyTruncUsec_eq_zero (x : ℤ) : max 0 (pyTruncUsec x) = 0 ↔ x < usec := by
  simp only [pyTruncUsec, usec]
  split <;> omega

/-- Applying the whole-second truncation before or after clamping at zero is
the same. -/
theorem max_pyTruncUsec_comm (x : ℤ) : max 0 (pyTruncUsec x) = pyTruncUsec (max 0 x) := by
  simp only [pyTruncUsec, usec]
  split <;> split <;> omega

/-- A successful `use_action` call stores the supplied time as `last_used`. -/
theorem use_action_success (st : Option Profile) (now tick : ℤ)
    (st' : Option Profile) (h : use_action st now tick = (true, st')) :
    st' = some ⟨some now⟩ := by
  simp only [use_action] at h
  split at h
  · exact (Prod.mk.injEq ..).mp h |>.2.symm
  · exact absurd ((Prod.mk.injEq ..).mp h).1 (by simp)

/-- `user_has_action` of a set record, unfolded to an inequality on times. -/
theorem user_has_action_iff (t0 now tick : ℤ) :
    user_has_action (some ⟨some t0⟩) now tick = true ↔ tick * usec - usec < now - t0 := by
  simp only [user_has_action, time_until_next_action, beq_iff_eq]
  rw [max_pyTruncUsec_eq_zero]
  omega

/-- `Profile.has_action` of a set record, unfolded to an inequality on
times. -/
theorem has_action_iff (t0 now tick : ℤ) :
    has_action ⟨some t0⟩ now tick = true ↔ tick * usec ≤ now - t0 := by
  simp [has_action]

/-!
## Claim theorems
-/

/-- C5 (counterexample): with tick = 300 s, after `consume` succeeds at time
`t0 = 0`, there is a time `t = 299.5 s` strictly before `t0 + tick` at which
`is_available` (`user_has_action`, the spec's `remaining_cooldown == 0`) is
already true, because `int()` truncates the remaining fraction of a second to
zero.  This refutes the claim that availability is false for every
`t < t0 + tick`. -/
theorem C5_truncated_availability_cex :
    use_action (some ⟨none⟩) 0 300 = (true, some ⟨some 0⟩) ∧
    user_has_action (some ⟨some 0⟩) 299500000 300 = true ∧
    (299500000 : ℤ) < 0 + 300 * usec := by
  decide

/-- C5 (amended): after `consume(identity, t0)` succeeds, the underlying
`Profile.has_action` flips to true exactly at `t0 + tick`; but
`is_available` — `remaining_cooldown == 0`, computed by
`time_until_next_action` with `int()` truncation — is false only for
`t ≤ t0 + tick - 1 s` and already true for every `t > t0 + tick - 1 s`,
i.e. up to one second early.  The two readings agree at whole-second
elapsed times. -/
theorem C5_availability_after_consume
    (st : Option Profile) (t0 tick : ℤ) (st' : Option Profile)
    (h : use_action st t0 tick = (true, st')) (t : ℤ) :
    (has_action ⟨some t0⟩ t tick = true ↔ t0 + tick * usec ≤ t) ∧
    (user_has_action st' t tick = true ↔ t0 + tick * usec - usec < t) := by
  rcases use_action_success st t0 tick st' h with rfl
  constructor
  · rw [has_action_iff]
    omega
  · rw [user_has_action_iff]
    omega

/-- C5 (witness): the amended theorem applied at `t0 = 0`, tick 300 s,
`t = 300 s`. -/
theorem C5_availability_after_consume_witness :
    (has_action ⟨some 0⟩ (300 * usec) 300 = true ↔ 0 + 300 * usec ≤ 300 * usec) ∧
    (user_has_action (some ⟨some 0⟩) (300 * usec) 300 = true ↔
      0 + 300 * usec - usec < 300 * usec) :=
  C5_availability_after_consume (some ⟨none⟩) 0 300 (some ⟨some 0⟩) (by decide) (300 * usec)

/-- C6: `time_until_next_action` returns 0 when no record exists or
`last_used` is unset; otherwise it returns `max(0, tick - (now - last_used))`
truncated toward zero at whole-second granularity; it is never negative; and
`user_has_action` (`is_available`) holds exactly when it returns 0. -/
theorem C6_remaining_cooldown_spec (now tick : ℤ) :
    time_until_next_action none now tick = 0 ∧
    time_until_next_action (some ⟨none⟩) now tick = 0 ∧
    (∀ t0 : ℤ, time_until_next_action (some ⟨some t0⟩) now tick =
      pyTruncUsec (max 0 (tick * usec - (now - t0)))) ∧
    (∀ st : Option Profile, 0 ≤ time_until_next_action st now tick) ∧
    (∀ st : Option Profile,
      (user_has_action st now tick = true ↔ time_until_next_action st now tick = 0)) := by
  refine ⟨rfl, rfl, ?_, ?_, ?_⟩
  · intro t0
    simp only [time_until_next_action]
    exact max_pyTruncUsec_comm _
  · intro st
    match st with
    | none => exact le_refl 0
    | some ⟨none⟩ => exact le_refl 0
    | some ⟨some t0⟩ => exact le_max_left 0 _
  · intro st
    simp [user_has_action]

/-- C7 (counterexample): a record last used at `t0 = 0` with tick = 300 s,
queried at `now = 299.5 s`: `is_available` (`user_has_action`) is true, yet
`use_action` fails and leaves the record unchanged — because the view decides
with the untruncated `Profile.has_action`, refuting the claim that `consume`
succeeds whenever `is_available` is true. -/
theorem C7_consume_vs_is_available_cex :
    user_has_action (some ⟨some 0⟩) 299500000 300 = true ∧
    use_action (some ⟨some 0⟩) 299500000 300 = (false, some ⟨some 0⟩) := by
  decide

/-- C7 (amended): `use_action` decides by `Profile.has_action` (untruncated
`elapsed ≥ tick`), not by `is_available`: on failure it returns the
fetched-or-created record unchanged, on success it stores `last_used = now`
(creating the record if absent).  Whenever the elapsed time is a whole number
of seconds the decision coincides with `is_available`
(`user_has_action`). -/
theorem C7_consume_spec (st : Option Profile) (now tick : ℤ) :
    (use_action st now tick).1 = has_action (st.getD ⟨none⟩) now tick ∧
    (has_action (st.getD ⟨none⟩) now tick = true →
      use_action st now tick = (true, some ⟨some now⟩)) ∧
    (has_action (st.getD ⟨none⟩) now tick = false →
      use_action st now tick = (false, some (st.getD ⟨none⟩))) ∧
    (∀ t0 k : ℤ, st = some ⟨some t0⟩ → now - t0 = k * usec →
      ((use_action st now tick).1 = true ↔ user_has_action st now tick = true)) := by
  refine ⟨?_, ?_, ?_, ?_⟩
  · simp only [use_action]
    split <;> simp_all
  · intro h
    simp [use_action, h]
  · intro h
    simp [use_action, h]
  · rintro t0 k rfl hk
    rw [user_has_action_iff]
    simp only [use_action, Option.getD_some]
    split
    · next hav =>
      rw [has_action_iff] at hav
      simp
      simp only [usec] at hav hk ⊢
      omega
    · next hav =>
      have hav2 : ¬ (tick * usec ≤ now - t0) :=
        fun hc => hav ((has_action_iff t0 now tick).mpr hc)
      simp
      simp only [usec] at hav2 hk ⊢
      omega

/-- C7 (witness): the amended theorem applied to a record last used at 0,
queried at 300 s with tick 300. -/
theorem C7_consume_spec_witness :
    ((use_action (some ⟨some 0⟩) (300 * usec) 300).1 =
      has_action ((some ⟨some 0⟩ : Option Profile).getD ⟨none⟩) (300 * usec) 300) ∧
    (has_action ((some ⟨some 0⟩ : Option Profile).getD ⟨none⟩) (300 * usec) 300 = true →
      use_action (some ⟨some 0⟩) (300 * usec) 300 = (true, some ⟨some (300 * usec)⟩)) ∧
    (has_action ((some ⟨some 0⟩ : Option Profile).getD ⟨none⟩) (300 * usec) 300 = false →
      use_action (some ⟨some 0⟩) (300 * usec) 300 = (false, some ((some ⟨some 0⟩ : Option Profile).getD ⟨none⟩))) ∧
    (∀ t0 k : ℤ, (some ⟨some 0⟩ : Option Profile) = some ⟨some t0⟩ → 300 * usec - t0 = k * usec →
      ((use_action (some ⟨some 0⟩) (300 * usec) 300).1 = true ↔
        user_has_action (some ⟨some 0⟩) (300 * usec) 300 = true)) :=
  C7_consume_spec (some ⟨some 0⟩) (300 * usec) 300

/-- C1 (counterexample): tick = 300 s, identity with no record, a note with
id 1 exists.  The gated pitch edit at t = 0 succeeds but leaves the cooldown
record absent (the view never calls `use_action` and never sets `last_used`),
and the identical edit repeated one second later succeeds as well instead of
failing with a cooldown error. -/
theorem C1_edit_does_not_consume_cex :
    (change_pitch oneNoteStore none 0 300 1 "C4").outcome = .ok ∧
    (change_pitch oneNoteStore none 0 300 1 "C4").gate = none ∧
    (change_pitch (change_pitch oneNoteStore none 0 300 1 "C4").store
      (change_pitch oneNoteStore none 0 300 1 "C4").gate usec 300 1 "C4").outcome = .ok := by
  decide

/-- C1 (amended): a gated pitch edit by an identity with no cooldown record
succeeds at every time `t` and leaves the record absent — `change_pitch` only
checks `user_has_action`, it never consumes the action — so the repeated edit
at `t + 1` (or any later time) succeeds as well; nothing ever fails with a
cooldown error for this identity. -/
theorem C1_edit_checks_but_never_consumes
    (store : Store) (now tick : ℤ) (i : ℕ) (p : String) (n : Note)
    (h : findNote store i = some n) :
    change_pitch store none now tick i p = ⟨.ok, store, none⟩ := by
  simp [change_pitch, user_has_action, time_until_next_action, h]

/-- C1 (witness): the amended theorem at tick = 300 s, t = 0 and again at
t = 1 s. -/
theorem C1_edit_checks_but_never_consumes_witness :
    findNote oneNoteStore 1 = some ⟨1, 1, "C", 4, 0, true⟩ ∧
    change_pitch oneNoteStore none 0 300 1 "C4" = ⟨.ok, oneNoteStore, none⟩ ∧
    change_pitch oneNoteStore none usec 300 1 "C4" = ⟨.ok, oneNoteStore, none⟩ :=
  ⟨by decide,
    C1_edit_checks_but_never_consumes oneNoteStore 0 300 1 "C4" ⟨1, 1, "C", 4, 0, true⟩ (by decide),
    C1_edit_checks_but_never_consumes oneNoteStore usec 300 1 "C4" ⟨1, 1, "C", 4, 0, true⟩ (by decide)⟩

/-- C9 (counterexample): `change_pitch` on an id absent from the store does
not produce the handled `NotFound` client-error response; the
`Note.objects.get(pk=...)` call raises `Note.DoesNotExist`, which no handler
catches. -/
theorem C9_unknown_id_raises_cex :
    change_pitch [] none 0 300 1 "C4" = ⟨.raisedDoesNotExist, [], none⟩ ∧
    PitchOutcome.raisedDoesNotExist ≠ PitchOutcome.errNotFound := by
  decide

/-- C9 (amended): for every note id absent from the store (with the gate
open), `change_pitch` terminates with the unhandled `Note.DoesNotExist`
exception — surfacing as a server error, not as the `NotFound` error result —
and the store and cooldown record are unchanged. -/
theorem C9_unknown_id_raises
    (store : Store) (gate : Option Profile) (now tick : ℤ) (i : ℕ) (p : String)
    (hg : user_has_action gate now tick = true) (h : findNote store i = none) :
    change_pitch store gate now tick i p = ⟨.raisedDoesNotExist, store, gate⟩ := by
  simp [change_pitch, hg, h]

/-- C9 (witness): the amended theorem on the empty store at id 1. -/
theorem C9_unknown_id_raises_witness :
    user_has_action none 0 300 = true ∧
    findNote [] 1 = none ∧
    change_pitch [] none 0 300 1 "C4" = ⟨.raisedDoesNotExist, [], none⟩ :=
  ⟨by decide, by decide, C9_unknown_id_raises [] none 0 300 1 "C4" (by decide) (by decide)⟩

/-- C10: every invocation of `change_pitch` leaves the persistent note store
and the cooldown record exactly as they were — the pitch assignment happens
only on the in-memory object, which is never saved — so even a successful
invocation changes no stored note's pitch, duration or position. -/
theorem C10_change_pitch_never_persists
    (store : Store) (gate : Option Profile) (now tick : ℤ) (i : ℕ) (p : String) :
    (change_pitch store gate now tick i p).store = store ∧
    (change_pitch store gate now tick i p).gate = gate := by
  unfold change_pitch
  split
  · exact ⟨rfl, rfl⟩
  · split <;> exact ⟨rfl, rfl⟩

/-- C2: on the spec's four-note measure, merging the two same-pitch notes
passes every check, deletes both notes, and then fails at
`Note.objects.create(..., weak=False)` — so this failing merge call leaves
the store missing the two deleted notes (and with the two survivors bumped
to duplicate positions by the stale-order deletes), not unchanged as the
claim requires. -/
theorem C2_merge_failure_mutates_store :
    (combine_pitch demoStore none 0 300 [1, 2]).1 = CombineOutcome.raisedCreateError ∧
    (combine_pitch demoStore none 0 300 [1, 2]).2 =
      [⟨3, 1, "D", 4, 1, true⟩, ⟨4, 1, "E", 4, 1, true⟩] ∧
    (combine_pitch demoStore none 0 300 [1, 2]).2 ≠ demoStore := by
  decide

/-- C3: merging the two same-pitch notes of durations 4 and 2 never yields a
replacement note at all — the view deletes both notes and then raises at the
creation step, so no merge in the repository ever succeeds — and the
`duration` argument the source had built for that creation call is
`note_list[0].duration * notes_len` = 8, the first note's duration repeated,
not the sum 6 the claim requires. -/
theorem C3_duration_arg_not_sum :
    combine_pitch unequalStore none 0 300 [1, 2] =
      (CombineOutcome.raisedCreateError, []) ∧
    combine_duration_arg ((resolveNotes unequalStore [1, 2]).getD []) = 8 ∧
    (((resolveNotes unequalStore [1, 2]).getD []).map (fun x => x.duration)).sum = 6 ∧
    (8 : ℕ) ≠ 6 := by
  decide

/-- C4 (counterexample): merging the C-pitched note 1 with the D-pitched
note 3 does not fail with `PitchMismatch` (the view never compares pitches),
and it does change the store: both notes are deleted before the creation step
raises. -/
theorem C4_pitch_mismatch_cex :
    findNote demoStore 1 = some ⟨1, 1, "C", 4, 0, true⟩ ∧
    findNote demoStore 3 = some ⟨3, 1, "D", 4, 2, true⟩ ∧
    ("C" : String) ≠ "D" ∧
    (combine_pitch demoStore none 0 300 [1, 3]).1 ≠ CombineOutcome.errPitchMismatch ∧
    (combine_pitch demoStore none 0 300 [1, 3]).2 ≠ demoStore := by
  decide

/-- C4 (amended): `combine_pitch` performs no pitch-equality check.  A merge
whose resolved notes have differing pitches is never rejected with
`PitchMismatch`: the call deletes every resolved note (using the stale
in-memory orders) and then raises at the creation step, leaving the store
changed rather than unchanged. -/
theorem C4_no_pitch_check
    (store : Store) (gate : Option Profile) (now tick : ℤ) (ids : List ℕ)
    (n0 n1 : Note) (rest : List Note)
    (hg : user_has_action gate now tick = true)
    (hres : resolveNotes store ids = some (n0 :: n1 :: rest))
    (hne : n0.pitch ≠ n1.pitch) :
    combine_pitch store gate now tick ids =
      (.raisedCreateError, (n0 :: n1 :: rest).foldl orderedDelete store) ∧
    (combine_pitch store gate now tick ids).1 ≠ CombineOutcome.errPitchMismatch := by
  have h1 : combine_pitch store gate now tick ids =
      (.raisedCreateError, (n0 :: n1 :: rest).foldl orderedDelete store) := by
    simp [combine_pitch, hg, hres]
  refine ⟨h1, ?_⟩
  rw [h1]
  simp

/-- C4 (witness): the amended theorem on notes 1 (pitch C) and 3 (pitch D) of
the four-note measure. -/
theorem C4_no_pitch_check_witness :
    user_has_action none 0 300 = true ∧
    resolveNotes demoStore [1, 3] =
      some [⟨1, 1, "C", 4, 0, true⟩, ⟨3, 1, "D", 4, 2, true⟩] ∧
    ("C" : String) ≠ "D" ∧
    (combine_pitch demoStore none 0 300 [1, 3] =
      (.raisedCreateError,
        ([⟨1, 1, "C", 4, 0, true⟩, ⟨3, 1, "D", 4, 2, true⟩] : List Note).foldl
          orderedDelete demoStore) ∧
    (combine_pitch demoStore none 0 300 [1, 3]).1 ≠ CombineOutcome.errPitchMismatch) :=
  ⟨by decide, by decide, by decide,
    C4_no_pitch_check demoStore none 0 300 [1, 3]
      ⟨1, 1, "C", 4, 0, true⟩ ⟨3, 1, "D", 4, 2, true⟩ [] (by decide) (by decide)
      (by decide)⟩

/-- C8: on the spec's own scenario — the four-note measure [C,C,D,E] at
positions [0,1,2,3], merging the notes at positions 0 and 1 — no merge ever
completes: the creation step always raises.  Moreover the structural changes
that do complete, the two `OrderedModel.delete()` calls, already destroy the
dense ordering, because each shifts its neighbours using the stale in-memory
`order` of objects fetched before the earlier delete: the two surviving
notes end up both at position 1, so the measure's position values are [1, 1]
— position 0 is missing and position 1 duplicated — not the dense
{0, ..., count-1} the claim requires after structural changes. -/
theorem C8_merge_breaks_density :
    (combine_pitch demoStore none 0 300 [1, 2]).1 = CombineOutcome.raisedCreateError ∧
    ((combine_pitch demoStore none 0 300 [1, 2]).2.map (fun x => x.order)) = [1, 1] ∧
    ¬ (0 ∈ (combine_pitch demoStore none 0 300 [1, 2]).2.map (fun x => x.order)) ∧
    ((orderedDelete (orderedDelete demoStore ⟨1, 1, "C", 4, 0, true⟩)
        ⟨2, 1, "C", 4, 1, true⟩).map (fun x => x.order)) = [1, 1] := by
  decide

end FiveMin
